import Mathlib

/-!
Shallow embedding of the `utils::dynarray<T>` container from `dynarray.hpp`.

The container holds a `std::unique_ptr<T[]> m_data` and a `size_t m_size`.
Since `unique_ptr` guarantees exclusive ownership of the buffer, the buffer
is embedded by value as an `Option (List α)`: `some buf` is an owning,
non-null pointer to a buffer whose contents are `buf`; `none` is a null
pointer (the state a `unique_ptr` is left in after being moved from).
Machine sizes (`size_t`) are modelled as `Nat`; the container never
performs size arithmetic that could overflow (the only subtraction,
`size() - 1` in `back()`, is not needed by any claim below).

Exceptions (`std::invalid_argument`, `std::out_of_range`) become an
explicit error type `DynError`; operations that can throw return `Except`,
and throwing operations that mutate return the post state explicitly, so
that the target being left unchanged on failure is a provable statement.
Reads through a possibly-invalid pointer (undefined behaviour in C++)
return `Option α`, with `none` for the undefined case.
-/

/-- Error kinds thrown by `dynarray`: `std::invalid_argument` on
size-mismatched copy-assignment and `std::out_of_range` on a failed
bounds-checked access. Each carries the message string built by the
source. -/
inductive DynError : Type where
  | invalidArgument (msg : String)
  | outOfRange (msg : String)
deriving DecidableEq

/-- The container: `std::unique_ptr<T[]> m_data; size_t m_size;`.
`m_data = none` models a null (moved-from) buffer pointer. -/
structure dynarray (α : Type) where
  m_data : Option (List α)
  m_size : Nat
deriving DecidableEq

namespace dynarray

/-- `size()`: returns `m_size`. -/
def dynSize (d : dynarray α) : Nat :=
  d.m_size

/-- `empty()`: returns `m_size == 0`. -/
def dynEmpty (d : dynarray α) : Bool :=
  d.m_size == 0

/-- The raw read `m_data[pos]` (also `operator[](pos)`): no bounds check.
Reading through a null pointer or past the buffer is undefined behaviour
in C++ and yields `none` here. -/
def rawIndex (d : dynarray α) (pos : Nat) : Option α :=
  match d.m_data with
  | some buf => buf[pos]?
  | none => none

/-- Well-formedness invariant every constructor establishes: the buffer
pointer is non-null and the allocation holds exactly `m_size` elements. -/
def wfb (d : dynarray α) : Bool :=
  match d.m_data with
  | some buf => buf.length == d.m_size
  | none => false

/-- Propositional form of `wfb`. -/
def wf (d : dynarray α) : Prop :=
  wfb d = true

instance (d : dynarray α) : Decidable (wf d) :=
  inferInstanceAs (Decidable (wfb d = true))

/-- `std::fill(first, first + n, value)` on a buffer: overwrite the first
`n` slots with `value`, in index order. Running past the end of the
buffer is undefined behaviour in C++; modelled as stopping. -/
def stdFillN (v : α) : Nat → List α → List α
  | 0, buf => buf
  | _ + 1, [] => []
  | n + 1, _ :: rest => v :: stdFillN v n rest

/-- `std::copy(src, src + n, dst)`: write the first `n` elements of the
source buffer over the first `n` slots of the destination buffer, in
index order. Either range running out before `n` elements is undefined
behaviour in C++; modelled as stopping. -/
def stdCopyN : Nat → List α → List α → List α
  | 0, _, dst => dst
  | n + 1, s :: srest, _ :: drest => s :: stdCopyN n srest drest
  | _ + 1, _, dst => dst

/-- Constructor (1), `dynarray(size_type count)`: `m_data{new T[count]},
m_size{count}`. The `count` freshly default-constructed elements are
modelled with the `Inhabited` default. -/
def dynByCount (α : Type) [Inhabited α] (count : Nat) : dynarray α :=
  { m_data := some (List.replicate count default), m_size := count }

/-- `fill(value)`: `std::fill(begin(), end(), value)`, i.e. overwrite the
`m_size` buffer slots between `data()` and `data() + size()`. A null
buffer leaves nothing to write. -/
def fillDyn (d : dynarray α) (v : α) : dynarray α :=
  { d with m_data := d.m_data.map (stdFillN v d.m_size) }

/-- Constructor (2), `dynarray(size_type count, T const& value)`:
allocate as constructor (1), then `std::fill(begin(), end(), value)`. -/
def dynByCountValue (α : Type) [Inhabited α] (count : Nat) (v : α) : dynarray α :=
  fillDyn (dynByCount α count) v

/-- Constructor (3), copy construction: `m_data{new T[other.size()]},
m_size{other.size()}` then `std::copy(other.begin(), other.end(),
begin())`. A fresh buffer of `other.size()` default elements is
allocated and the source elements are copied over it. -/
def copyCtor [Inhabited α] (other : dynarray α) : dynarray α :=
  { m_data := some (stdCopyN other.m_size (other.m_data.getD [])
      (List.replicate other.m_size default)),
    m_size := other.m_size }

/-- Constructor (4), move construction: `m_data{std::move(other.m_data)},
m_size{other.size()}`. Moving a `unique_ptr` nulls the source pointer;
`other.m_size` is left untouched, and the member-init order (`m_data`
before `m_size`) means the new size reads the unchanged `other.m_size`.
Returns `(new instance, source after the move)`. -/
def moveCtor (other : dynarray α) : dynarray α × dynarray α :=
  ({ m_data := other.m_data, m_size := other.m_size },
   { m_data := none, m_size := other.m_size })

/-- Constructor (5), `dynarray(std::initializer_list<T> list)`:
`m_data{new T[list.size()]}, m_size{list.size()}` then
`std::copy(list.begin(), list.end(), begin())`. -/
def dynFromList [Inhabited α] (l : List α) : dynarray α :=
  { m_data := some (stdCopyN l.length l (List.replicate l.length default)),
    m_size := l.length }

/-- Message built by `operator=(dynarray const&)` for the
`std::invalid_argument` exception; carries the source size then the
target size. -/
def invalidArgMsgDyn (otherSize targetSize : Nat) : String :=
  "cannot copy-assign dynarray of size " ++ toString otherSize ++
    " into dynarray of size " ++ toString targetSize

/-- Message built by `operator=(std::initializer_list<T>)` for the
`std::invalid_argument` exception; carries the list size then the
target size. -/
def invalidArgMsgList (listSize targetSize : Nat) : String :=
  "cannot copy-assign initializer_list of size " ++ toString listSize ++
    " into dynarray of size " ++ toString targetSize

/-- Message built by `at` for the `std::out_of_range` exception; carries
the requested position and the container size. -/
def outOfRangeMsg (pos size : Nat) : String :=
  "cannot access element at position " ++ toString pos ++
    " from a dynarray with size " ++ toString size

/-- `operator=(dynarray const& other)`: throw `std::invalid_argument`
when `size() != other.size()`, leaving the target untouched; otherwise
`std::copy(other.begin(), other.end(), begin())` into the existing
buffer. Returns the outcome and the post state of the target. -/
def copyAssignDyn (d other : dynarray α) : Except DynError Unit × dynarray α :=
  if d.m_size ≠ other.m_size then
    (Except.error (DynError.invalidArgument (invalidArgMsgDyn other.m_size d.m_size)), d)
  else
    (Except.ok (),
     { d with m_data := d.m_data.map (fun buf => stdCopyN other.m_size (other.m_data.getD []) buf) })

/-- `operator=(dynarray && other)`: `std::swap(m_data, other.m_data);
std::swap(m_size, other.m_size)`. Returns `(target after, source
after)`. -/
def moveAssign (d other : dynarray α) : dynarray α × dynarray α :=
  ({ m_data := other.m_data, m_size := other.m_size },
   { m_data := d.m_data, m_size := d.m_size })

/-- `operator=(std::initializer_list<T> list)`: throw
`std::invalid_argument` when `size() != list.size()`, leaving the target
untouched; otherwise `std::copy(list.begin(), list.end(), begin())` into
the existing buffer. Returns the outcome and the post state. -/
def copyAssignList (d : dynarray α) (l : List α) : Except DynError Unit × dynarray α :=
  if d.m_size ≠ l.length then
    (Except.error (DynError.invalidArgument (invalidArgMsgList l.length d.m_size)), d)
  else
    (Except.ok (), { d with m_data := d.m_data.map (fun buf => stdCopyN l.length l buf) })

/-- `at(size_type pos)`: throw `std::out_of_range` when `pos >= size()`;
otherwise return `m_data[pos]`. The operation never mutates the
container (its embedding takes the container by value and returns only
the access result). -/
def dynAt (d : dynarray α) (pos : Nat) : Except DynError (Option α) :=
  if d.m_size ≤ pos then
    Except.error (DynError.outOfRange (outOfRangeMsg pos d.m_size))
  else
    Except.ok (rawIndex d pos)

/-- `operator[](size_type pos)`: unchecked `m_data[pos]`. -/
def dynIndex (d : dynarray α) (pos : Nat) : Option α :=
  rawIndex d pos

/-- Store through `operator[]`: `d[pos] = v`. Writing out of bounds or
through a null pointer is undefined behaviour in C++; modelled as a
no-op (`List.set` ignores out-of-range positions). -/
def writeElem (d : dynarray α) (pos : Nat) (v : α) : dynarray α :=
  { d with m_data := d.m_data.map (fun buf => buf.set pos v) }

/-- `begin()` as an offset from `data()`: the buffer base, offset 0. -/
def beginIdx (_ : dynarray α) : Nat :=
  0

/-- `end()` as an offset from `data()`: `data() + size()`. -/
def endIdx (d : dynarray α) : Nat :=
  d.m_size

/-- Dereference a forward iterator at offset `it` from `data()`. -/
def derefIt (d : dynarray α) (it : Nat) : Option α :=
  rawIndex d it

/-- Dereference a `std::reverse_iterator` whose base forward iterator
sits at offset `base`: yields `*(base - 1)`. -/
def revDeref (d : dynarray α) (base : Nat) : Option α :=
  derefIt d (base - 1)

/-- Forward traversal from `begin()` to `end()`: the sequence of
dereferences seen while stepping `begin()` forward until it reaches
`end()`, one element per step. -/
def fwdTraverse (d : dynarray α) : List (Option α) :=
  (List.range (endIdx d - beginIdx d)).map (fun k => derefIt d (beginIdx d + k))

/-- Reverse traversal from `rbegin()` to `rend()`: `rbegin()` is the
reverse iterator with base `end()` and `rend()` the one with base
`begin()`; stepping a reverse iterator decrements its base, and each
dereference yields `*(base - 1)`. -/
def revTraverse (d : dynarray α) : List (Option α) :=
  (List.range (endIdx d - beginIdx d)).map (fun k => revDeref d (endIdx d - k))

end dynarray

namespace dynarray

theorem stdCopyN_eq_self {α : Type} :
    ∀ (n : Nat) (src dst : List α), src.length = n → dst.length = n →
      stdCopyN n src dst = src := by
  intro n
  induction n with
  | zero =>
    intro src dst hs hd
    rw [List.length_eq_zero] at hs hd
    subst hs
    subst hd
    rfl
  | succ m ih =>
    intro src dst hs hd
    match src, dst with
    | [], _ => simp at hs
    | _, [] => simp at hd
    | s :: srest, d :: drest =>
      simp only [List.length_cons, Nat.succ.injEq] at hs hd
      simp only [stdCopyN, ih srest drest hs hd]

theorem stdFillN_eq_replicate {α : Type} (v : α) :
    ∀ (n : Nat) (buf : List α), buf.length = n →
      stdFillN v n buf = List.replicate n v := by
  intro n
  induction n with
  | zero =>
    intro buf h
    rw [List.length_eq_zero] at h
    subst h
    rfl
  | succ m ih =>
    intro buf h
    match buf with
    | [] => simp at h
    | b :: rest =>
      simp only [List.length_cons, Nat.succ.injEq] at h
      simp only [stdFillN, List.replicate_succ, ih rest h]

theorem wf_def {α : Type} (d : dynarray α) :
    wf d ↔ ∃ buf, d.m_data = some buf ∧ buf.length = d.m_size := by
  unfold wf wfb
  match h : d.m_data with
  | some buf => simp [h]
  | none => simp [h]

theorem rawIndex_some {α : Type} (d : dynarray α) (buf : List α)
    (h : d.m_data = some buf) (pos : Nat) : rawIndex d pos = buf[pos]? := by
  unfold rawIndex
  rw [h]

theorem map_range_rev {β : Type} (f : Nat → β) :
    ∀ n : Nat, (List.range n).map (fun k => f (n - 1 - k)) =
      ((List.range n).map f).reverse := by
  intro n
  induction n with
  | zero => rfl
  | succ m ih =>
    calc (List.range (m + 1)).map (fun k => f (m + 1 - 1 - k))
        = f (m + 1 - 1 - 0) ::
            ((List.range m).map Nat.succ).map (fun k => f (m + 1 - 1 - k)) := by
          rw [List.range_succ_eq_map]
          rfl
      _ = f m :: (List.range m).map (fun k => f (m - 1 - k)) := by
          rw [List.map_map]
          refine congrArg₂ List.cons (by congr 1) ?_
          apply List.map_congr_left
          intro k _
          simp only [Function.comp_apply]
          congr 1
          omega
      _ = f m :: ((List.range m).map f).reverse := by rw [ih]
      _ = ((List.range (m + 1)).map f).reverse := by
          rw [List.range_succ, List.map_append, List.reverse_append]
          rfl

end dynarray

namespace dynarray

/-- Claim C9: for every count (and every fill value in the
count-and-value form), constructing by count yields `size() == count`
and `empty() == (count == 0)`, and in the count-and-value form the
element at every offset below the count equals the given value. -/
theorem claim_C9_ctor_by_count (α : Type) [Inhabited α] (count : Nat) (v : α) :
    dynSize (dynByCount α count) = count ∧
    dynEmpty (dynByCount α count) = (count == 0) ∧
    dynSize (dynByCountValue α count v) = count ∧
    dynEmpty (dynByCountValue α count v) = (count == 0) ∧
    (∀ i, i < count → rawIndex (dynByCountValue α count v) i = some v) := by
  refine ⟨rfl, rfl, rfl, rfl, ?_⟩
  intro i hi
  have hm : (dynByCountValue α count v).m_data =
      some (stdFillN v count (List.replicate count default)) := rfl
  rw [rawIndex_some _ _ hm i,
    stdFillN_eq_replicate v count _ (List.length_replicate count default),
    List.getElem?_replicate, if_pos hi]

/-- Claim C6: constructing from a literal sequence and then reading
every offset in order reproduces the sequence exactly; the statement
covers all lengths, in particular 0, 1 and N > 1. -/
theorem claim_C6_fromList_roundtrip (α : Type) [Inhabited α] (l : List α) :
    dynSize (dynFromList l) = l.length ∧
    (∀ i, i < l.length → rawIndex (dynFromList l) i = l[i]?) := by
  refine ⟨rfl, ?_⟩
  intro i _
  have hm : (dynFromList l).m_data =
      some (stdCopyN l.length l (List.replicate l.length default)) := rfl
  rw [rawIndex_some _ _ hm i,
    stdCopyN_eq_self l.length l _ rfl (List.length_replicate l.length default)]

/-- Claim C7: `fill(v)` makes the element at every offset in
`[0, size())` equal to `v` and leaves `size()` unchanged. -/
theorem claim_C7_fill (α : Type) (d : dynarray α) (v : α) (h : wf d) :
    dynSize (fillDyn d v) = dynSize d ∧
    (∀ i, i < dynSize d → rawIndex (fillDyn d v) i = some v) := by
  obtain ⟨buf, hbuf, hlen⟩ := (wf_def d).mp h
  refine ⟨rfl, ?_⟩
  intro i hi
  have hm : (fillDyn d v).m_data = some (stdFillN v d.m_size buf) := by
    unfold fillDyn
    rw [hbuf]
    rfl
  rw [rawIndex_some _ _ hm i, stdFillN_eq_replicate v d.m_size buf hlen,
    List.getElem?_replicate, if_pos (show i < d.m_size from hi)]

/-- Witness for claim C7 at a concrete container. -/
theorem claim_C7_fill_witness :
    wf (dynFromList [(1 : Nat), 2]) ∧
    dynSize (fillDyn (dynFromList [(1 : Nat), 2]) 7) = dynSize (dynFromList [(1 : Nat), 2]) ∧
    rawIndex (fillDyn (dynFromList [(1 : Nat), 2]) 7) 0 = some 7 :=
  ⟨by decide, (claim_C7_fill Nat (dynFromList [(1 : Nat), 2]) 7 (by decide)).1,
   (claim_C7_fill Nat (dynFromList [(1 : Nat), 2]) 7 (by decide)).2 0 (by decide)⟩

/-- Claim C10: under the bounds precondition `pos < size()`, the
checked access `at(pos)` succeeds with exactly the value the unchecked
`operator[](pos)` yields: the two access paths agree. -/
theorem claim_C10_checked_unchecked_agree (α : Type) (d : dynarray α) (pos : Nat)
    (h : pos < dynSize d) :
    dynAt d pos = Except.ok (dynIndex d pos) := by
  unfold dynSize at h
  unfold dynAt dynIndex
  rw [if_neg (by omega)]

/-- Witness for claim C10 at a concrete container and offset. -/
theorem claim_C10_checked_unchecked_agree_witness :
    0 < dynSize (dynFromList [(9 : Nat)]) ∧
    dynAt (dynFromList [(9 : Nat)]) 0 = Except.ok (dynIndex (dynFromList [(9 : Nat)]) 0) :=
  ⟨by decide, claim_C10_checked_unchecked_agree Nat (dynFromList [(9 : Nat)]) 0 (by decide)⟩

/-- Claim C4: move-assignment swaps buffer and length between target
and source, so each afterwards holds exactly the size and elements the
other held before; no length-equality precondition is involved. -/
theorem claim_C4_move_assign (α : Type) (d other : dynarray α) :
    dynSize (moveAssign d other).1 = dynSize other ∧
    dynSize (moveAssign d other).2 = dynSize d ∧
    (∀ i, rawIndex (moveAssign d other).1 i = rawIndex other i) ∧
    (∀ i, rawIndex (moveAssign d other).2 i = rawIndex d i) :=
  ⟨rfl, rfl, fun _ => rfl, fun _ => rfl⟩

/-- Claim C1 counterexample: move-constructing from the one-element
container `{5}` leaves the source reporting `size() == 1`, not `0`;
the move nulls only the buffer pointer, `m_size` is never cleared. -/
theorem claim_C1_counterexample :
    dynSize (moveCtor (dynFromList [(5 : Nat)])).2 = 1 ∧
    dynSize (moveCtor (dynFromList [(5 : Nat)])).2 ≠ 0 := by
  decide

/-- Claim C1 (amended): move construction gives the new instance the
original size and elements of the source; afterwards the buffer pointer
of the source is null while its `size()` still reports the original
size (so it reports 0 only when the source was already empty). -/
theorem claim_C1_move_ctor (α : Type) (other : dynarray α) :
    dynSize (moveCtor other).1 = dynSize other ∧
    (∀ i, rawIndex (moveCtor other).1 i = rawIndex other i) ∧
    (moveCtor other).2.m_data = none ∧
    dynSize (moveCtor other).2 = dynSize other :=
  ⟨rfl, fun _ => rfl, rfl, rfl⟩

end dynarray

namespace dynarray

/-- Claim C3: `at(pos)` fails with an `OutOfRange` error whose message
carries `pos` and the length exactly when `pos >= size()`, and for
`pos < size()` returns the element at position `pos`. The embedding of
`at` takes the container by value and returns only the access result,
so neither path mutates the container. -/
theorem claim_C3_at_bounds (α : Type) (d : dynarray α) (pos : Nat) (h : wf d) :
    ((∃ msg, dynAt d pos = Except.error (DynError.outOfRange msg) ∧
        msg = outOfRangeMsg pos (dynSize d)) ↔ dynSize d ≤ pos) ∧
    (pos < dynSize d →
      ∃ x, rawIndex d pos = some x ∧ dynAt d pos = Except.ok (some x)) := by
  obtain ⟨buf, hbuf, hlen⟩ := (wf_def d).mp h
  unfold dynSize
  constructor
  · constructor
    · rintro ⟨msg, hmsg, -⟩
      by_contra hlt
      push_neg at hlt
      unfold dynAt at hmsg
      rw [if_neg (by omega)] at hmsg
      exact Except.noConfusion hmsg
    · intro hle
      refine ⟨outOfRangeMsg pos d.m_size, ?_, rfl⟩
      unfold dynAt
      rw [if_pos hle]
  · intro hlt
    have hb : pos < buf.length := by omega
    refine ⟨buf[pos], ?_, ?_⟩
    · rw [rawIndex_some _ _ hbuf, List.getElem?_eq_getElem hb]
    · unfold dynAt
      rw [if_neg (by omega), rawIndex_some _ _ hbuf, List.getElem?_eq_getElem hb]

/-- Witness for claim C3: a concrete out-of-bounds access on a
two-element container produces the `OutOfRange` error with the message
built from the offset and the length, and a concrete in-bounds access
returns the element. -/
theorem claim_C3_at_bounds_witness :
    dynAt (dynFromList [(3 : Nat), 4]) 5 =
      Except.error (DynError.outOfRange
        (outOfRangeMsg 5 (dynSize (dynFromList [(3 : Nat), 4])))) ∧
    dynAt (dynFromList [(3 : Nat), 4]) 1 = Except.ok (some 4) := by
  constructor
  · obtain ⟨msg, hmsg, heq⟩ :=
      ((claim_C3_at_bounds Nat (dynFromList [(3 : Nat), 4]) 5 (by decide)).1).mpr
        (by decide)
    rw [hmsg, heq]
  · obtain ⟨x, hx, hok⟩ :=
      (claim_C3_at_bounds Nat (dynFromList [(3 : Nat), 4]) 1 (by decide)).2
        (by decide)
    have : x = 4 := by
      have : rawIndex (dynFromList [(3 : Nat), 4]) 1 = some 4 := by decide
      rw [this] at hx
      exact (Option.some.injEq .. ▸ hx.symm)
    rw [hok, this]

/-- Claim C2: copy-assignment from another dynarray or from a literal
sequence fails with an `InvalidArgument` error carrying both sizes in
its message and returns the target unchanged when the lengths differ;
with equal lengths it succeeds, copies every element into the existing
buffer of the target, and leaves the target size unchanged. -/
theorem claim_C2_copy_assign (α : Type) (d other : dynarray α) (l : List α)
    (hd : wf d) (ho : wf other) :
    (dynSize other ≠ dynSize d →
      copyAssignDyn d other =
        (Except.error (DynError.invalidArgument
          (invalidArgMsgDyn (dynSize other) (dynSize d))), d)) ∧
    (dynSize other = dynSize d →
      (copyAssignDyn d other).1 = Except.ok () ∧
      dynSize (copyAssignDyn d other).2 = dynSize d ∧
      (∀ i, i < dynSize d → rawIndex (copyAssignDyn d other).2 i = rawIndex other i)) ∧
    (l.length ≠ dynSize d →
      copyAssignList d l =
        (Except.error (DynError.invalidArgument
          (invalidArgMsgList l.length (dynSize d))), d)) ∧
    (l.length = dynSize d →
      (copyAssignList d l).1 = Except.ok () ∧
      dynSize (copyAssignList d l).2 = dynSize d ∧
      (∀ i, i < dynSize d → rawIndex (copyAssignList d l).2 i = l[i]?)) := by
  obtain ⟨dbuf, hdbuf, hdlen⟩ := (wf_def d).mp hd
  obtain ⟨obuf, hobuf, holen⟩ := (wf_def other).mp ho
  unfold dynSize
  refine ⟨?_, ?_, ?_, ?_⟩
  · intro hne
    unfold copyAssignDyn
    rw [if_pos (by omega)]
  · intro heq
    have hcopy : (copyAssignDyn d other).2.m_data = some obuf := by
      unfold copyAssignDyn
      rw [if_neg (by omega)]
      show (d.m_data.map _) = _
      rw [hdbuf, hobuf]
      show some (stdCopyN other.m_size obuf dbuf) = some obuf
      rw [stdCopyN_eq_self other.m_size obuf dbuf holen (by omega)]
    have hfst : (copyAssignDyn d other).1 = Except.ok () := by
      unfold copyAssignDyn
      rw [if_neg (by omega)]
    have hsz : (copyAssignDyn d other).2.m_size = d.m_size := by
      unfold copyAssignDyn
      rw [if_neg (by omega)]
    refine ⟨hfst, hsz, ?_⟩
    intro i _
    rw [rawIndex_some _ _ hcopy i, rawIndex_some _ _ hobuf i]
  · intro hne
    unfold copyAssignList
    rw [if_pos (by omega)]
  · intro heq
    have hcopy : (copyAssignList d l).2.m_data = some l := by
      unfold copyAssignList
      rw [if_neg (by omega)]
      show (d.m_data.map _) = _
      rw [hdbuf]
      show some (stdCopyN l.length l dbuf) = some l
      rw [stdCopyN_eq_self l.length l dbuf rfl (by omega)]
    have hfst : (copyAssignList d l).1 = Except.ok () := by
      unfold copyAssignList
      rw [if_neg (by omega)]
    have hsz : (copyAssignList d l).2.m_size = d.m_size := by
      unfold copyAssignList
      rw [if_neg (by omega)]
    refine ⟨hfst, hsz, ?_⟩
    intro i _
    rw [rawIndex_some _ _ hcopy i]

/-- Witness for claim C2: a size-2 target rejects a size-3 dynarray and
a size-3 literal, each with the message carrying both sizes and the
target returned unchanged; with matching sizes both forms succeed and
copy the elements. -/
theorem claim_C2_copy_assign_witness :
    copyAssignDyn (dynFromList [(1 : Nat), 2]) (dynFromList [(7 : Nat), 8, 9]) =
      (Except.error (DynError.invalidArgument (invalidArgMsgDyn 3 2)),
        dynFromList [(1 : Nat), 2]) ∧
    (copyAssignDyn (dynFromList [(1 : Nat), 2]) (dynFromList [(7 : Nat), 8])).1 =
      Except.ok () ∧
    rawIndex (copyAssignDyn (dynFromList [(1 : Nat), 2]) (dynFromList [(7 : Nat), 8])).2 0 =
      rawIndex (dynFromList [(7 : Nat), 8]) 0 ∧
    copyAssignList (dynFromList [(1 : Nat), 2]) [(4 : Nat), 5, 6] =
      (Except.error (DynError.invalidArgument (invalidArgMsgList 3 2)),
        dynFromList [(1 : Nat), 2]) ∧
    (copyAssignList (dynFromList [(1 : Nat), 2]) [(4 : Nat), 5]).1 = Except.ok () :=
  ⟨(claim_C2_copy_assign Nat (dynFromList [(1 : Nat), 2]) (dynFromList [(7 : Nat), 8, 9])
      [] (by decide) (by decide)).1 (by decide),
   ((claim_C2_copy_assign Nat (dynFromList [(1 : Nat), 2]) (dynFromList [(7 : Nat), 8])
      [] (by decide) (by decide)).2.1 (by decide)).1,
   ((claim_C2_copy_assign Nat (dynFromList [(1 : Nat), 2]) (dynFromList [(7 : Nat), 8])
      [] (by decide) (by decide)).2.1 (by decide)).2.2 0 (by decide),
   (claim_C2_copy_assign Nat (dynFromList [(1 : Nat), 2]) (dynFromList [(1 : Nat), 2])
      [(4 : Nat), 5, 6] (by decide) (by decide)).2.2.1 (by decide),
   ((claim_C2_copy_assign Nat (dynFromList [(1 : Nat), 2]) (dynFromList [(1 : Nat), 2])
      [(4 : Nat), 5] (by decide) (by decide)).2.2.2 (by decide)).1⟩

end dynarray

namespace dynarray

/-- Claim C5: copy construction yields an instance of equal size with an
equal element at every offset, and the copy owns a freshly allocated
buffer, so the two instances are independent: in the explicit
two-instance state `(copy, source)`, writing an element of the copy
leaves the source component exactly as it was (and writing the source
leaves the copy component as it was), and every offset of the copy other
than the one written still agrees with the source. -/
theorem claim_C5_copy_ctor (α : Type) [Inhabited α] (s : dynarray α) (h : wf s) :
    dynSize (copyCtor s) = dynSize s ∧
    (∀ i, i < dynSize s → rawIndex (copyCtor s) i = rawIndex s i) ∧
    (∀ i v, ((writeElem (copyCtor s) i v, s) : dynarray α × dynarray α).2 = s) ∧
    (∀ i v, ((copyCtor s, writeElem s i v) : dynarray α × dynarray α).1 = copyCtor s) ∧
    (∀ i v j, j ≠ i → j < dynSize s →
      rawIndex (writeElem (copyCtor s) i v) j = rawIndex s j) := by
  obtain ⟨sbuf, hsbuf, hslen⟩ := (wf_def s).mp h
  have hcbuf : (copyCtor s).m_data = some sbuf := by
    unfold copyCtor
    rw [hsbuf]
    show some (stdCopyN s.m_size sbuf (List.replicate s.m_size default)) = some sbuf
    rw [stdCopyN_eq_self s.m_size sbuf _ hslen (List.length_replicate s.m_size default)]
  refine ⟨rfl, ?_, fun _ _ => rfl, fun _ _ => rfl, ?_⟩
  · intro i _
    rw [rawIndex_some _ _ hcbuf i, rawIndex_some _ _ hsbuf i]
  · intro i v j hne _
    have hwbuf : (writeElem (copyCtor s) i v).m_data = some (sbuf.set i v) := by
      unfold writeElem
      rw [hcbuf]
      rfl
    rw [rawIndex_some _ _ hwbuf j, rawIndex_some _ _ hsbuf j,
      List.getElem?_set_ne (fun hij => hne hij.symm)]

/-- Witness for claim C5 on the concrete source `{1, 2}`: the copy has
size 2 and the same element at offset 0, writing 9 into offset 0 of the
copy leaves the source component unchanged, and offset 1 of the written
copy still agrees with the source. -/
theorem claim_C5_copy_ctor_witness :
    wf (dynFromList [(1 : Nat), 2]) ∧
    dynSize (copyCtor (dynFromList [(1 : Nat), 2])) = dynSize (dynFromList [(1 : Nat), 2]) ∧
    rawIndex (copyCtor (dynFromList [(1 : Nat), 2])) 0 = rawIndex (dynFromList [(1 : Nat), 2]) 0 ∧
    ((writeElem (copyCtor (dynFromList [(1 : Nat), 2])) 0 9, dynFromList [(1 : Nat), 2]) :
        dynarray Nat × dynarray Nat).2 = dynFromList [(1 : Nat), 2] ∧
    rawIndex (writeElem (copyCtor (dynFromList [(1 : Nat), 2])) 0 9) 1 =
      rawIndex (dynFromList [(1 : Nat), 2]) 1 :=
  ⟨by decide,
   (claim_C5_copy_ctor Nat (dynFromList [(1 : Nat), 2]) (by decide)).1,
   (claim_C5_copy_ctor Nat (dynFromList [(1 : Nat), 2]) (by decide)).2.1 0 (by decide),
   (claim_C5_copy_ctor Nat (dynFromList [(1 : Nat), 2]) (by decide)).2.2.1 0 9,
   (claim_C5_copy_ctor Nat (dynFromList [(1 : Nat), 2]) (by decide)).2.2.2.2 0 9 1
     (by decide) (by decide)⟩

/-- Claim C8: stepping `begin()` forward until it reaches `end()` takes
exactly `size()` steps and dereferences the elements at offsets
`0 .. size()-1` in index order; the reverse traversal, whose iterators
are built from the forward boundary positions (`rbegin()` has base
`end()`, `rend()` has base `begin()`), dereferences the same sequence
in the opposite order. -/
theorem claim_C8_iteration (α : Type) (d : dynarray α) :
    (fwdTraverse d).length = dynSize d ∧
    (∀ k, k < dynSize d → (fwdTraverse d)[k]? = some (rawIndex d k)) ∧
    revTraverse d = (fwdTraverse d).reverse := by
  have hfwd : fwdTraverse d = (List.range d.m_size).map (fun k => rawIndex d k) := by
    unfold fwdTraverse derefIt beginIdx endIdx
    simp only [Nat.sub_zero, Nat.zero_add]
  refine ⟨?_, ?_, ?_⟩
  · rw [hfwd]
    simp [dynSize]
  · intro k hk
    rw [hfwd, List.getElem?_map, List.getElem?_range (show k < d.m_size from hk)]
    rfl
  · have hrev : revTraverse d =
        (List.range d.m_size).map (fun k => rawIndex d (d.m_size - 1 - k)) := by
      unfold revTraverse revDeref derefIt beginIdx endIdx
      simp only [Nat.sub_zero]
      apply List.map_congr_left
      intro k _
      congr 1
      omega
    rw [hrev, hfwd, map_range_rev]

end dynarray
